import Mathlib

/-!
Shallow embedding of the Factory RCA Agent application (src/app.py): the line
profile store, the conversation assembler, the investigation state flags, the
threshold evaluator and the report emitter, together with one `step` function
mirroring one top-to-bottom run of the script after a user interaction.
-/

/-- An uploaded picture: the application passes the decoded image object around
untouched, so we model it as an opaque identity-carrying value. -/
structure PILImage where
  id : Nat
deriving DecidableEq, Repr

/-- Chat roles as used in the session history dictionaries. -/
inductive Role
  | user
  | assistant
deriving DecidableEq, Repr

/-- One entry of `st.session_state.messages`: a role, a text content and an
optional attached image (`none` models both a missing "image" key and a
`None` value, which the code treats alike). -/
structure Message where
  role : Role
  content : String
  image : Option PILImage
deriving DecidableEq, Repr

instance : Inhabited Message := ⟨⟨Role.user, "", none⟩⟩

/-- The two production lines of `FACTORY_PROFILE`. -/
inductive Line
  | Line_4
  | Line_2
deriving DecidableEq, Repr

/-- The string key under which a line is stored and displayed. -/
def lineName : Line → String
  | Line.Line_4 => "Line_4"
  | Line.Line_2 => "Line_2"

/-- One value of the `FACTORY_PROFILE` dictionary. Counts and thresholds are
numeric in the source; we embed them as rationals. -/
structure LineProfile where
  Product : String
  Flow : String
  Last_CIP : String
  Risk_Category : String
  Threshold : ℚ
deriving DecidableEq, Repr

/-- The digital-twin context table of src/app.py lines 30-45. -/
def FACTORY_PROFILE : Line → LineProfile
  | Line.Line_4 =>
      ⟨"Strawberry Yogurt (pH 4.4)",
       "Pasto -> Buffer Tank -> Fruit Doser -> Filler",
       "Yesterday 22:00",
       "High Acid (Yeast/Mold Risk)",
       50⟩
  | Line.Line_2 =>
      ⟨"UHT Vanilla Dessert (pH 6.5)",
       "Sterilizer -> Aseptic Tank -> Filler",
       "Today 04:00",
       "Low Acid (Bacteria Risk)",
       1⟩

/-- Arithmetic mean of the Count column (`df['Count'].mean()`); for the empty
series the quotient is `0/0 = 0` in ℚ, but `meanAbove` handles that case
separately, mirroring pandas. -/
def seriesMean (s : List ℚ) : ℚ := s.sum / (s.length : ℚ)

/-- The comparison `avg_count > limit` of src/app.py lines 189-200. On an
empty series pandas returns NaN for the mean and `NaN > limit` evaluates to
`False` for every limit, so the empty case is `false` here. -/
def meanAbove (s : List ℚ) (t : ℚ) : Bool :=
  if s.isEmpty then false else decide (seriesMean s > t)

/-- The four narrative branches the threshold check can display
(spec names for the messages of src/app.py lines 194, 198, 200, 202). -/
inductive Verdict
  | Clean
  | CriticalBreach
  | SystemicFailure
  | SporadicSpike
deriving DecidableEq, Repr

/-- The Threshold Evaluator: the branch structure of src/app.py lines 189-202,
with `limit = context['Threshold']` of the selected line. -/
def evaluate (line : Line) (series : List ℚ) : Verdict :=
  let limit := (FACTORY_PROFILE line).Threshold
  if line = Line.Line_2 then
    if meanAbove series limit then Verdict.CriticalBreach else Verdict.Clean
  else
    if meanAbove series limit then Verdict.SystemicFailure else Verdict.SporadicSpike

/-- The hidden system prompt built by `ask_the_team_conversational`
(src/app.py lines 54-69), reproduced with the f-string holes filled by
concatenation. -/
def system_instruction (context : LineProfile) : String :=
  "\n    You are the AI Operating System for a food factory.\n    \n    CONTEXT:\n    - Product: "
    ++ context.Product
    ++ "\n    - Process Flow: "
    ++ context.Flow
    ++ "\n    - Risk Category: "
    ++ context.Risk_Category
    ++ "\n    \n    ROLE:\n    You simulate a root cause analysis meeting between a MICROBIOLOGIST and a PROCESS ENGINEER.\n    \n    INSTRUCTIONS:\n    - If this is the start of a generic incident, provide two distinct hypotheses (MICRO:| and ENGINEER:|).\n    - If the user asks a specific follow-up question (e.g., \"What bug is that?\"), answer directly as the relevant expert.\n    - Always stay in character. Be technical.\n    "

/-- One element of a `parts` list: a text part or an image part, exactly the
two kinds appended in the loop of src/app.py lines 78-91. -/
inductive MsgPart
  | text (s : String)
  | image (i : PILImage)
deriving DecidableEq, Repr

/-- One element of the heterogeneous `api_contents` list: the system
instruction string or a per-message list of parts. -/
inductive ApiContent
  | sys (s : String)
  | turn (parts : List MsgPart)
deriving DecidableEq, Repr

/-- The `parts` list built for one history message: its text when the content
string is truthy (non-empty), then its image when present (src/app.py lines
79-87). -/
def msgParts (m : Message) : List MsgPart :=
  (if m.content = "" then [] else [MsgPart.text m.content])
    ++ (match m.image with
        | some i => [MsgPart.image i]
        | none => [])

/-- The full request payload: the system instruction first, then one `turn`
per history message whose `parts` list is non-empty (`if parts:`),
in history order (src/app.py lines 71-91). -/
def api_contents (context : LineProfile) (history : List Message) : List ApiContent :=
  ApiContent.sys (system_instruction context)
    :: history.filterMap (fun m =>
        if msgParts m = [] then none else some (ApiContent.turn (msgParts m)))

/-- The outcome of `client.models.generate_content`: either the response text
or a raised exception rendered as a string. -/
def GenService : Type := List ApiContent → Except String String

/-- `ask_the_team_conversational` (src/app.py lines 48-103): build the payload,
call the service, and on any exception return the warning string instead of
propagating. -/
def ask_the_team_conversational (context : LineProfile) (history : List Message)
    (generate : GenService) : String :=
  match generate (api_contents context history) with
  | Except.ok t => t
  | Except.error e => "⚠️ Connection Error: " ++ e

/-- The fixed-layout fields `create_pdf` renders into the document
(src/app.py lines 106-122); the generation date is a timestamp argument. -/
structure PdfDoc where
  line : String
  issue : String
  root_cause : String
  action : String
deriving DecidableEq, Repr

/-- `create_pdf` (src/app.py lines 106-125): renders the document and writes
it to `RCA_Report_<unix time>.pdf`, returning that file name. `t` stands for
`int(time.time())`. -/
def create_pdf (t : Nat) (line issue root_cause action : String) : PdfDoc × String :=
  (⟨line, issue, root_cause, action⟩, "RCA_Report_" ++ toString t ++ ".pdf")

/-- A report offered for download in one rerun: the rendered document, the
file written on disk, and the `file_name` passed to `st.download_button`. -/
structure Offer where
  doc : PdfDoc
  diskFile : String
  downloadName : String
deriving DecidableEq, Repr

/-- The three session-state slots initialised at src/app.py lines 136-138. -/
structure SessionState where
  messages : List Message
  investigation_active : Bool
  rca_complete : Bool
deriving Repr

/-- Fresh session state: empty history, both flags false. -/
def initState : SessionState := ⟨[], false, false⟩

/-- The widget values read during one script rerun: the selected line, the
chat input (with an optional uploaded photo), the parsed Count column of an
uploaded CSV, and which of the three buttons reads true. -/
structure Input where
  line : Line
  prompt : Option (String × Option PILImage)
  csv : Option (List ℚ)
  genCritical : Bool
  oringOK : Bool
  oringCracked : Bool

/-- Observable outputs of one rerun: the payload sent to the generation
service (if a prompt was processed), the verdict branch displayed (if evidence
was evaluated), and the reports offered for download. -/
structure Output where
  payload : Option (List ApiContent)
  verdict : Option Verdict
  offers : List Offer

/-- `st.session_state.messages[-2]['content'] if len > 1 else "Visual Defect"`
(src/app.py line 212). -/
def lastIssue (msgs : List Message) : String :=
  if 1 < msgs.length then (msgs.getD (msgs.length - 2) default).content
  else "Visual Defect"

/-- The trigger logic of src/app.py lines 155-176: on a truthy prompt, mark
the investigation active, append the user message (with the photo when one is
uploaded), call the team and append the reply as an assistant message. Returns
the new state and the payload sent, if any. -/
def triggerStep (context : LineProfile) (generate : GenService) (s : SessionState)
    (prompt : Option (String × Option PILImage)) :
    SessionState × Option (List ApiContent) :=
  match prompt with
  | none => (s, none)
  | some (p, img) =>
      if p = "" then (s, none)
      else
        let msgs := s.messages ++ [⟨Role.user, p, img⟩]
        let contents := api_contents context msgs
        let resp := ask_the_team_conversational context msgs generate
        (⟨msgs ++ [⟨Role.assistant, resp, none⟩], true, s.rca_complete⟩, some contents)

/-- The investigation phase of src/app.py lines 178-214, entered only when
`investigation_active` holds after the trigger logic: evaluate the uploaded
evidence, branch on the line and the threshold, update `rca_complete` on the
"O-ring Cracked" button, and offer reports on the two terminal branches. -/
def investigationStep (t : Nat) (line : Line) (s1 : SessionState)
    (csv : Option (List ℚ)) (genCritical oringCracked : Bool) :
    SessionState × Option Verdict × List Offer :=
  match csv with
  | none => (s1, none, [])
  | some series =>
      let limit := (FACTORY_PROFILE line).Threshold
      let v := evaluate line series
      if line = Line.Line_2 then
        if meanAbove series limit then
          if genCritical then
            let r := create_pdf t (lineName line) "UHT Breach" "Sterility Failure" "STOP PRODUCTION"
            (s1, some v, [⟨r.1, r.2, r.2⟩])
          else (s1, some v, [])
        else (s1, some v, [])
      else
        if meanAbove series limit then (s1, some v, [])
        else
          let s2 := if oringCracked then ⟨s1.messages, s1.investigation_active, true⟩ else s1
          if s2.rca_complete then
            let r := create_pdf t (lineName line) (lastIssue s2.messages) "Mechanical Failure" "Replace Seal"
            (s2, some v, [⟨r.1, r.2, "RCA_Final.pdf"⟩])
          else (s2, some v, [])

/-- One top-to-bottom rerun of the script body (src/app.py lines 155-214)
against the current session state: trigger logic, then the investigation
phase when active. `t` is the clock read by `create_pdf`. -/
def step (generate : GenService) (t : Nat) (s : SessionState) (i : Input) :
    SessionState × Output :=
  let tr := triggerStep (FACTORY_PROFILE i.line) generate s i.prompt
  let s1 := tr.1
  if s1.investigation_active then
    let inv := investigationStep t i.line s1 i.csv i.genCritical i.oringCracked
    (inv.1, ⟨tr.2, inv.2.1, inv.2.2⟩)
  else (s1, ⟨tr.2, none, []⟩)

/-- The state after a sequence of reruns from a fresh session. -/
def run (generate : GenService) (t : Nat) (inputs : List Input) : SessionState :=
  inputs.foldl (fun s i => (step generate t s i).1) initState

/-- `sub` occurs verbatim (contiguously, unchanged) inside `s`. -/
def containsVerbatim (s sub : String) : Prop := ∃ a b, s = a ++ sub ++ b

/-! ## Helper lemmas -/

theorem string_append_assoc (a b c : String) : a ++ b ++ c = a ++ (b ++ c) :=
  String.ext (by simp)

theorem string_append_empty (s : String) : s ++ "" = s :=
  String.ext (by simp)

theorem meanAbove_of_ne_nil (s : List ℚ) (t : ℚ) (hs : s ≠ []) :
    meanAbove s t = decide (seriesMean s > t) := by
  simp [meanAbove, hs]

theorem msgParts_eq_nil_iff (m : Message) :
    msgParts m = [] ↔ m.content = "" ∧ m.image = none := by
  rcases m with ⟨r, c, img⟩
  by_cases hc : c = "" <;> cases img <;> simp [msgParts, hc]

theorem triggerStep_rca (context : LineProfile) (generate : GenService)
    (s : SessionState) (prompt : Option (String × Option PILImage)) :
    (triggerStep context generate s prompt).1.rca_complete = s.rca_complete := by
  rcases prompt with _ | ⟨p, img⟩
  · rfl
  · by_cases hp : p = "" <;> simp [triggerStep, hp]

theorem triggerStep_active_mono (context : LineProfile) (generate : GenService)
    (s : SessionState) (prompt : Option (String × Option PILImage))
    (h : s.investigation_active = true) :
    (triggerStep context generate s prompt).1.investigation_active = true := by
  rcases prompt with _ | ⟨p, img⟩
  · exact h
  · by_cases hp : p = "" <;> simp [triggerStep, hp, h]

theorem investigationStep_messages (t : Nat) (line : Line) (s1 : SessionState)
    (csv : Option (List ℚ)) (genCritical oringCracked : Bool) :
    (investigationStep t line s1 csv genCritical oringCracked).1.messages = s1.messages := by
  rcases csv with _ | series
  · rfl
  · simp only [investigationStep]
    split <;> split <;> first
      | rfl
      | (split <;> first | rfl | (split <;> rfl))

theorem investigationStep_active (t : Nat) (line : Line) (s1 : SessionState)
    (csv : Option (List ℚ)) (genCritical oringCracked : Bool) :
    (investigationStep t line s1 csv genCritical oringCracked).1.investigation_active =
      s1.investigation_active := by
  rcases csv with _ | series
  · rfl
  · simp only [investigationStep]
    split <;> split <;> first
      | rfl
      | (split <;> first | rfl | (split <;> rfl))

theorem investigationStep_rca_mono (t : Nat) (line : Line) (s1 : SessionState)
    (csv : Option (List ℚ)) (genCritical oringCracked : Bool)
    (h : s1.rca_complete = true) :
    (investigationStep t line s1 csv genCritical oringCracked).1.rca_complete = true := by
  rcases csv with _ | series
  · exact h
  · simp only [investigationStep]
    split <;> split <;> first
      | exact h
      | (split <;> first | exact h | (split <;> simp [h]))

theorem step_messages (generate : GenService) (t : Nat) (s : SessionState) (i : Input) :
    (step generate t s i).1.messages =
      (triggerStep (FACTORY_PROFILE i.line) generate s i.prompt).1.messages := by
  simp only [step]
  split
  · exact investigationStep_messages ..
  · rfl

theorem step_active_mono (generate : GenService) (t : Nat) (s : SessionState) (i : Input)
    (h : s.investigation_active = true) :
    (step generate t s i).1.investigation_active = true := by
  have h1 := triggerStep_active_mono (FACTORY_PROFILE i.line) generate s i.prompt h
  simp only [step]
  split <;> simp [investigationStep_active, h1]

theorem step_rca_mono (generate : GenService) (t : Nat) (s : SessionState) (i : Input)
    (h : s.rca_complete = true) :
    (step generate t s i).1.rca_complete = true := by
  have h1 : (triggerStep (FACTORY_PROFILE i.line) generate s i.prompt).1.rca_complete = true := by
    rw [triggerStep_rca]; exact h
  simp only [step]
  split
  · exact investigationStep_rca_mono _ _ _ _ _ _ h1
  · exact h1

theorem step_rca_needs_active (generate : GenService) (t : Nat) (s : SessionState) (i : Input)
    (h : (step generate t s i).1.rca_complete = true) :
    s.rca_complete = true ∨ (step generate t s i).1.investigation_active = true := by
  by_cases hact :
      (triggerStep (FACTORY_PROFILE i.line) generate s i.prompt).1.investigation_active = true
  · right
    simp only [step, hact, if_true]
    rw [investigationStep_active]
    exact hact
  · left
    simp only [step, hact, if_false] at h
    rw [← triggerStep_rca (FACTORY_PROFILE i.line) generate s i.prompt]
    exact h

theorem step_invariant (generate : GenService) (t : Nat) (s : SessionState) (i : Input)
    (h : s.rca_complete = true → s.investigation_active = true) :
    (step generate t s i).1.rca_complete = true →
      (step generate t s i).1.investigation_active = true := by
  intro hr
  rcases step_rca_needs_active generate t s i hr with hs | hact
  · exact step_active_mono generate t s i (h hs)
  · exact hact

theorem run_invariant (generate : GenService) (t : Nat) (inputs : List Input) :
    (run generate t inputs).rca_complete = true →
      (run generate t inputs).investigation_active = true := by
  suffices H : ∀ s : SessionState, (s.rca_complete = true → s.investigation_active = true) →
      ((inputs.foldl (fun s i => (step generate t s i).1) s).rca_complete = true →
        (inputs.foldl (fun s i => (step generate t s i).1) s).investigation_active = true) by
    exact H initState (by intro h; cases h)
  induction inputs with
  | nil => intro s hs; exact hs
  | cons a as ih =>
      intro s hs
      exact ih ((step generate t s a).1) (step_invariant generate t s a hs)

/-! ## Claim theorems -/

/-- C1: on every non-empty evidence series, the Threshold Evaluator on the
low-acid line (Line_2) yields CriticalBreach exactly when the mean is strictly
above the line threshold and Clean otherwise; on the high-acid line (Line_4)
it yields SystemicFailure exactly when the mean is strictly above and
SporadicSpike otherwise; a mean exactly equal to the threshold is classified
Clean / SporadicSpike. -/
theorem evaluate_threshold_branches (s : List ℚ) (hs : s ≠ []) :
    (evaluate Line.Line_2 s = Verdict.CriticalBreach ↔
      seriesMean s > (FACTORY_PROFILE Line.Line_2).Threshold) ∧
    (evaluate Line.Line_2 s = Verdict.Clean ↔
      ¬ seriesMean s > (FACTORY_PROFILE Line.Line_2).Threshold) ∧
    (evaluate Line.Line_4 s = Verdict.SystemicFailure ↔
      seriesMean s > (FACTORY_PROFILE Line.Line_4).Threshold) ∧
    (evaluate Line.Line_4 s = Verdict.SporadicSpike ↔
      ¬ seriesMean s > (FACTORY_PROFILE Line.Line_4).Threshold) ∧
    (seriesMean s = (FACTORY_PROFILE Line.Line_2).Threshold →
      evaluate Line.Line_2 s = Verdict.Clean) ∧
    (seriesMean s = (FACTORY_PROFILE Line.Line_4).Threshold →
      evaluate Line.Line_4 s = Verdict.SporadicSpike) := by
  have h2 := meanAbove_of_ne_nil s (FACTORY_PROFILE Line.Line_2).Threshold hs
  have h4 := meanAbove_of_ne_nil s (FACTORY_PROFILE Line.Line_4).Threshold hs
  by_cases c2 : seriesMean s > (FACTORY_PROFILE Line.Line_2).Threshold <;>
    by_cases c4 : seriesMean s > (FACTORY_PROFILE Line.Line_4).Threshold <;>
      simp [evaluate, h2, h4, c2, c4] <;>
      first
        | (intro h; rw [h] at c2; exact absurd c2 (lt_irrefl _))
        | (intro h; rw [h] at c4; exact absurd c4 (lt_irrefl _))
        | (constructor <;> (intro h; first
            | (rw [h] at c2; exact absurd c2 (lt_irrefl _))
            | (rw [h] at c4; exact absurd c4 (lt_irrefl _))))

/-- Witness for C1 at the concrete series [2]: mean 2 is above threshold 1 on
Line_2 and below threshold 50 on Line_4. -/
theorem evaluate_threshold_branches_witness :
    (([2] : List ℚ) ≠ []) ∧
    ((evaluate Line.Line_2 [2] = Verdict.CriticalBreach ↔
      seriesMean [2] > (FACTORY_PROFILE Line.Line_2).Threshold) ∧
    (evaluate Line.Line_2 [2] = Verdict.Clean ↔
      ¬ seriesMean [2] > (FACTORY_PROFILE Line.Line_2).Threshold) ∧
    (evaluate Line.Line_4 [2] = Verdict.SystemicFailure ↔
      seriesMean [2] > (FACTORY_PROFILE Line.Line_4).Threshold) ∧
    (evaluate Line.Line_4 [2] = Verdict.SporadicSpike ↔
      ¬ seriesMean [2] > (FACTORY_PROFILE Line.Line_4).Threshold) ∧
    (seriesMean [2] = (FACTORY_PROFILE Line.Line_2).Threshold →
      evaluate Line.Line_2 [2] = Verdict.Clean) ∧
    (seriesMean [2] = (FACTORY_PROFILE Line.Line_4).Threshold →
      evaluate Line.Line_4 [2] = Verdict.SporadicSpike)) :=
  ⟨by decide, evaluate_threshold_branches [2] (by decide)⟩

/-- C2 (code bug): on the empty evidence series the code does NOT report an
input error — `df['Count'].mean()` is NaN and `NaN > limit` is False, so the
script falls into the non-breach branch and displays a verdict: Clean on
Line_2 and SporadicSpike on Line_4, silently treating the empty series as
clean. -/
theorem evaluate_empty_series_yields_verdict :
    evaluate Line.Line_2 [] = Verdict.Clean ∧
    evaluate Line.Line_4 [] = Verdict.SporadicSpike ∧
    (step (fun _ => Except.ok "") 0 ⟨[], true, false⟩
        ⟨Line.Line_2, none, some [], false, false, false⟩).2.verdict = some Verdict.Clean ∧
    (step (fun _ => Except.ok "") 0 ⟨[], true, false⟩
        ⟨Line.Line_4, none, some [], false, false, false⟩).2.verdict =
      some Verdict.SporadicSpike :=
  ⟨rfl, rfl, rfl, rfl⟩

/-- C3: when the hosted generation call fails, the conversational call returns
(rather than raises) a string that begins with the warning marker "⚠️", and the
rerun appends that string to the session history as an assistant turn. -/
theorem generation_failure_fail_soft (generate : GenService) (t : Nat)
    (s : SessionState) (i : Input) (p : String) (img : Option PILImage) (e : String)
    (hp : i.prompt = some (p, img)) (hne : p ≠ "")
    (herr : generate (api_contents (FACTORY_PROFILE i.line)
      (s.messages ++ [⟨Role.user, p, img⟩])) = Except.error e) :
    ask_the_team_conversational (FACTORY_PROFILE i.line)
        (s.messages ++ [⟨Role.user, p, img⟩]) generate =
      "⚠️" ++ (" Connection Error: " ++ e) ∧
    (step generate t s i).1.messages =
      s.messages ++ [⟨Role.user, p, img⟩,
        ⟨Role.assistant, "⚠️" ++ (" Connection Error: " ++ e), none⟩] := by
  have hsplit : ("⚠️ Connection Error: " : String) = "⚠️" ++ " Connection Error: " := by decide
  have hask : ask_the_team_conversational (FACTORY_PROFILE i.line)
      (s.messages ++ [⟨Role.user, p, img⟩]) generate =
        "⚠️" ++ (" Connection Error: " ++ e) := by
    rw [ask_the_team_conversational, herr, hsplit]
    exact string_append_assoc "⚠️" " Connection Error: " e
  refine ⟨hask, ?_⟩
  rw [step_messages]
  simp [triggerStep, hp, hne, hask]

/-- Witness for C3: a service that always fails with "boom" on the prompt
"hi" from a fresh session. -/
theorem generation_failure_fail_soft_witness :
    ask_the_team_conversational (FACTORY_PROFILE Line.Line_4)
        ([] ++ [⟨Role.user, "hi", none⟩]) (fun _ => Except.error "boom") =
      "⚠️" ++ (" Connection Error: " ++ "boom") ∧
    (step (fun _ => Except.error "boom") 0 initState
        ⟨Line.Line_4, some ("hi", none), none, false, false, false⟩).1.messages =
      [] ++ [⟨Role.user, "hi", none⟩,
        ⟨Role.assistant, "⚠️" ++ (" Connection Error: " ++ "boom"), none⟩] :=
  generation_failure_fail_soft (fun _ => Except.error "boom") 0 initState
    ⟨Line.Line_4, some ("hi", none), none, false, false, false⟩ "hi" none "boom"
    rfl (by decide) rfl

theorem payload_turns (h : List Message) (hyp : ∀ m ∈ h, ¬ msgParts m = []) :
    h.filterMap (fun m => if msgParts m = [] then none else some (ApiContent.turn (msgParts m)))
      = h.map (fun m => ApiContent.turn (msgParts m)) := by
  induction h with
  | nil => rfl
  | cons a tl ih =>
      rw [List.filterMap_cons, List.map_cons]
      rw [if_neg (hyp a (List.mem_cons_self a tl))]
      rw [ih (fun m hm => hyp m (List.mem_cons_of_mem a hm))]

/-- C4: when every history message has a text or an image, the payload is the
framing block followed by one turn per message, in arrival order, nothing
dropped; and a message with neither text nor image is never appended to the
payload. -/
theorem payload_is_full_history (context : LineProfile) (h : List Message) :
    ((∀ m ∈ h, m.content ≠ "" ∨ m.image ≠ none) →
      api_contents context h =
        ApiContent.sys (system_instruction context)
          :: h.map (fun m => ApiContent.turn (msgParts m))) ∧
    (∀ r, api_contents context (h ++ [⟨r, "", none⟩]) = api_contents context h) := by
  constructor
  · intro hyp
    unfold api_contents
    rw [payload_turns h ?_]
    intro m hm
    rw [msgParts_eq_nil_iff]
    rcases hyp m hm with hc | hi
    · exact fun hand => hc hand.1
    · exact fun hand => hi hand.2
  · intro r
    unfold api_contents
    rw [List.filterMap_append]
    simp [List.filterMap_cons, msgParts]

/-- Witness for C4: a one-message history with text satisfies the hypothesis
and yields the framing block followed by exactly that turn. -/
theorem payload_is_full_history_witness :
    api_contents (FACTORY_PROFILE Line.Line_2) [⟨Role.user, "hello", none⟩] =
      ApiContent.sys (system_instruction (FACTORY_PROFILE Line.Line_2))
        :: ([⟨Role.user, "hello", none⟩] : List Message).map
            (fun m => ApiContent.turn (msgParts m)) :=
  (payload_is_full_history (FACTORY_PROFILE Line.Line_2) [⟨Role.user, "hello", none⟩]).1
    (by decide)

/-- C6: a message appended to the history (non-empty text, optional image)
contributes to the next payload exactly its stored text and its stored image,
unchanged and in that order. -/
theorem message_roundtrip (context : LineProfile) (h : List Message)
    (p : String) (img : Option PILImage) (hp : p ≠ "") :
    api_contents context (h ++ [⟨Role.user, p, img⟩]) =
      api_contents context h ++
        [ApiContent.turn (MsgPart.text p
          :: (match img with | some i => [MsgPart.image i] | none => []))] := by
  have hparts : msgParts ⟨Role.user, p, img⟩ =
      MsgPart.text p :: (match img with | some i => [MsgPart.image i] | none => []) := by
    cases img <;> simp [msgParts, hp]
  unfold api_contents
  rw [List.filterMap_append]
  simp [List.filterMap_cons, hparts]

/-- Witness for C6: the message "leak" with photo 5 appended to the empty
history contributes exactly its text part then its image part. -/
theorem message_roundtrip_witness :
    api_contents (FACTORY_PROFILE Line.Line_4) ([] ++ [⟨Role.user, "leak", some ⟨5⟩⟩]) =
      api_contents (FACTORY_PROFILE Line.Line_4) [] ++
        [ApiContent.turn (MsgPart.text "leak" :: [MsgPart.image ⟨5⟩])] :=
  message_roundtrip (FACTORY_PROFILE Line.Line_4) [] "leak" (some ⟨5⟩) (by decide)

/-- C5: both session flags start false; `investigation_active` and
`rca_complete` are monotonic under every interaction; and `rca_complete` can
only become true together with `investigation_active` — on every reachable
state, `rca_complete` implies `investigation_active`. -/
theorem investigation_flags_monotone (generate : GenService) (t : Nat)
    (s : SessionState) (i : Input) (inputs : List Input) :
    initState.investigation_active = false ∧
    initState.rca_complete = false ∧
    (s.investigation_active = true → (step generate t s i).1.investigation_active = true) ∧
    (s.rca_complete = true → (step generate t s i).1.rca_complete = true) ∧
    ((step generate t s i).1.rca_complete = true →
      s.rca_complete = true ∨ (step generate t s i).1.investigation_active = true) ∧
    ((run generate t inputs).rca_complete = true →
      (run generate t inputs).investigation_active = true) :=
  ⟨rfl, rfl, step_active_mono generate t s i, step_rca_mono generate t s i,
   step_rca_needs_active generate t s i, run_invariant generate t inputs⟩

/-- Witness for C5: an active, confirmed session stays active and confirmed
through a further interaction, and a one-interaction run that confirms the
root cause is also marked active. -/
theorem investigation_flags_monotone_witness :
    (step (fun _ => Except.ok "ok") 0 ⟨[], true, true⟩
        ⟨Line.Line_4, none, some [12], false, false, true⟩).1.investigation_active = true ∧
    (step (fun _ => Except.ok "ok") 0 ⟨[], true, true⟩
        ⟨Line.Line_4, none, some [12], false, false, true⟩).1.rca_complete = true ∧
    ((⟨[], true, true⟩ : SessionState).rca_complete = true ∨
      (step (fun _ => Except.ok "ok") 0 ⟨[], true, true⟩
        ⟨Line.Line_4, none, some [12], false, false, true⟩).1.investigation_active = true) ∧
    (run (fun _ => Except.ok "ok") 0
        [⟨Line.Line_4, some ("x", none), some [12], false, false, true⟩]).investigation_active =
      true := by
  have H := investigation_flags_monotone (fun _ => Except.ok "ok") 0 ⟨[], true, true⟩
    ⟨Line.Line_4, none, some [12], false, false, true⟩
    [⟨Line.Line_4, some ("x", none), some [12], false, false, true⟩]
  have h : ¬ (50 : ℚ) < 12 := by norm_num
  refine ⟨H.2.2.1 rfl, H.2.2.2.1 rfl, H.2.2.2.2.1 ?_, H.2.2.2.2.2 ?_⟩
  · simp [step, triggerStep, investigationStep, meanAbove, seriesMean, FACTORY_PROFILE, h]
  · simp [run, step, triggerStep, investigationStep, meanAbove, seriesMean, FACTORY_PROFILE,
      initState, h]

/-- C7: the first element of every request payload is the framing block for
the selected line, and that block contains, verbatim, the line's Product,
Flow and Risk_Category strings together with the fixed two-persona
instruction text; all history-derived parts come after it. -/
theorem framing_block_first (line : Line) (h : List Message) :
    (api_contents (FACTORY_PROFILE line) h).head? =
      some (ApiContent.sys (system_instruction (FACTORY_PROFILE line))) ∧
    containsVerbatim (system_instruction (FACTORY_PROFILE line))
      (FACTORY_PROFILE line).Product ∧
    containsVerbatim (system_instruction (FACTORY_PROFILE line))
      (FACTORY_PROFILE line).Flow ∧
    containsVerbatim (system_instruction (FACTORY_PROFILE line))
      (FACTORY_PROFILE line).Risk_Category ∧
    containsVerbatim (system_instruction (FACTORY_PROFILE line))
      "\n    \n    ROLE:\n    You simulate a root cause analysis meeting between a MICROBIOLOGIST and a PROCESS ENGINEER.\n    \n    INSTRUCTIONS:\n    - If this is the start of a generic incident, provide two distinct hypotheses (MICRO:| and ENGINEER:|).\n    - If the user asks a specific follow-up question (e.g., \"What bug is that?\"), answer directly as the relevant expert.\n    - Always stay in character. Be technical.\n    " := by
  refine ⟨rfl, ?_, ?_, ?_, ?_⟩
  · exact ⟨"\n    You are the AI Operating System for a food factory.\n    \n    CONTEXT:\n    - Product: ",
      "\n    - Process Flow: " ++ (FACTORY_PROFILE line).Flow
        ++ "\n    - Risk Category: " ++ (FACTORY_PROFILE line).Risk_Category
        ++ "\n    \n    ROLE:\n    You simulate a root cause analysis meeting between a MICROBIOLOGIST and a PROCESS ENGINEER.\n    \n    INSTRUCTIONS:\n    - If this is the start of a generic incident, provide two distinct hypotheses (MICRO:| and ENGINEER:|).\n    - If the user asks a specific follow-up question (e.g., \"What bug is that?\"), answer directly as the relevant expert.\n    - Always stay in character. Be technical.\n    ",
      by rw [system_instruction]; try simp only [string_append_assoc, string_append_empty]⟩
  · exact ⟨"\n    You are the AI Operating System for a food factory.\n    \n    CONTEXT:\n    - Product: "
        ++ (FACTORY_PROFILE line).Product ++ "\n    - Process Flow: ",
      "\n    - Risk Category: " ++ (FACTORY_PROFILE line).Risk_Category
        ++ "\n    \n    ROLE:\n    You simulate a root cause analysis meeting between a MICROBIOLOGIST and a PROCESS ENGINEER.\n    \n    INSTRUCTIONS:\n    - If this is the start of a generic incident, provide two distinct hypotheses (MICRO:| and ENGINEER:|).\n    - If the user asks a specific follow-up question (e.g., \"What bug is that?\"), answer directly as the relevant expert.\n    - Always stay in character. Be technical.\n    ",
      by rw [system_instruction]; try simp only [string_append_assoc, string_append_empty]⟩
  · exact ⟨"\n    You are the AI Operating System for a food factory.\n    \n    CONTEXT:\n    - Product: "
        ++ (FACTORY_PROFILE line).Product ++ "\n    - Process Flow: "
        ++ (FACTORY_PROFILE line).Flow ++ "\n    - Risk Category: ",
      "\n    \n    ROLE:\n    You simulate a root cause analysis meeting between a MICROBIOLOGIST and a PROCESS ENGINEER.\n    \n    INSTRUCTIONS:\n    - If this is the start of a generic incident, provide two distinct hypotheses (MICRO:| and ENGINEER:|).\n    - If the user asks a specific follow-up question (e.g., \"What bug is that?\"), answer directly as the relevant expert.\n    - Always stay in character. Be technical.\n    ",
      by rw [system_instruction]; try simp only [string_append_assoc, string_append_empty]⟩
  · exact ⟨"\n    You are the AI Operating System for a food factory.\n    \n    CONTEXT:\n    - Product: "
        ++ (FACTORY_PROFILE line).Product ++ "\n    - Process Flow: "
        ++ (FACTORY_PROFILE line).Flow ++ "\n    - Risk Category: "
        ++ (FACTORY_PROFILE line).Risk_Category,
      "",
      by rw [system_instruction]; try simp only [string_append_assoc, string_append_empty]⟩

/-- C8 counterexample: at timestamps 0 and 1, the low-acid critical branch
offers DIFFERENT (timestamp-embedding) filenames, while the mechanical-failure
branch offers the SAME fixed download name "RCA_Final.pdf" both times — the
opposite assignment to the one the claim states. -/
theorem report_filename_claim_refuted :
    (step (fun _ => Except.ok "") 0 ⟨[], true, false⟩
        ⟨Line.Line_2, none, some [4], true, false, false⟩).2.offers.map
          (fun o => o.downloadName) = ["RCA_Report_0.pdf"] ∧
    (step (fun _ => Except.ok "") 1 ⟨[], true, false⟩
        ⟨Line.Line_2, none, some [4], true, false, false⟩).2.offers.map
          (fun o => o.downloadName) = ["RCA_Report_1.pdf"] ∧
    (step (fun _ => Except.ok "") 0 ⟨[], true, false⟩
        ⟨Line.Line_2, none, some [4], true, false, false⟩).2.offers.map
          (fun o => o.diskFile) = ["RCA_Report_0.pdf"] ∧
    ¬ ("RCA_Report_0.pdf" : String) = "RCA_Report_1.pdf" ∧
    (step (fun _ => Except.ok "") 0 ⟨[], true, false⟩
        ⟨Line.Line_4, none, some [12], false, false, true⟩).2.offers.map
          (fun o => o.downloadName) = ["RCA_Final.pdf"] ∧
    (step (fun _ => Except.ok "") 1 ⟨[], true, false⟩
        ⟨Line.Line_4, none, some [12], false, false, true⟩).2.offers.map
          (fun o => o.downloadName) = ["RCA_Final.pdf"] := by
  have h1 : (1 : ℚ) < 4 := by norm_num
  have h2 : ¬ (50 : ℚ) < 12 := by norm_num
  refine ⟨?_, ?_, ?_, by decide, ?_, ?_⟩ <;>
    simp [step, triggerStep, investigationStep, meanAbove, seriesMean, FACTORY_PROFILE,
      create_pdf, lineName, lastIssue, h1, h2] <;> decide

/-- C8 (amended): both terminal branches write the report to the timestamped
disk file RCA_Report_<time>.pdf; the download filename is the timestamped name
on the low-acid critical branch and the fixed "RCA_Final.pdf" on the
mechanical-failure branch — exactly one terminal branch uses a fixed name, and
it is the mechanical-failure one. -/
theorem report_filenames_amended (generate : GenService) (t : Nat)
    (sc sm : SessionState) (serC serM : List ℚ)
    (hactC : sc.investigation_active = true)
    (hcrit : meanAbove serC (FACTORY_PROFILE Line.Line_2).Threshold = true)
    (hactM : sm.investigation_active = true)
    (hspor : meanAbove serM (FACTORY_PROFILE Line.Line_4).Threshold = false) :
    (step generate t sc ⟨Line.Line_2, none, some serC, true, false, false⟩).2.offers.map
        (fun o => (o.diskFile, o.downloadName)) =
      [("RCA_Report_" ++ toString t ++ ".pdf", "RCA_Report_" ++ toString t ++ ".pdf")] ∧
    (step generate t sm ⟨Line.Line_4, none, some serM, false, false, true⟩).2.offers.map
        (fun o => (o.diskFile, o.downloadName)) =
      [("RCA_Report_" ++ toString t ++ ".pdf", "RCA_Final.pdf")] := by
  constructor <;>
    simp [step, triggerStep, investigationStep, hactC, hactM, hcrit, hspor,
      create_pdf, lineName]

/-- Witness for C8's amended theorem at timestamp 3 with concrete series. -/
theorem report_filenames_amended_witness :
    (step (fun _ => Except.ok "") 3 ⟨[], true, false⟩
        ⟨Line.Line_2, none, some [4], true, false, false⟩).2.offers.map
        (fun o => (o.diskFile, o.downloadName)) =
      [("RCA_Report_" ++ toString 3 ++ ".pdf", "RCA_Report_" ++ toString 3 ++ ".pdf")] ∧
    (step (fun _ => Except.ok "") 3 ⟨[], true, false⟩
        ⟨Line.Line_4, none, some [12], false, false, true⟩).2.offers.map
        (fun o => (o.diskFile, o.downloadName)) =
      [("RCA_Report_" ++ toString 3 ++ ".pdf", "RCA_Final.pdf")] :=
  report_filenames_amended (fun _ => Except.ok "") 3 ⟨[], true, false⟩ ⟨[], true, false⟩
    [4] [12] rfl (by norm_num [meanAbove, seriesMean, FACTORY_PROFILE]) rfl
    (by norm_num [meanAbove, seriesMean, FACTORY_PROFILE])

/-- C9: the mechanical-failure report's issue field is the content of the
second-to-last history message when the history holds more than one message
and the literal "Visual Defect" otherwise; its root cause and action fields
are always "Mechanical Failure" and "Replace Seal". -/
theorem mechanical_report_fields (generate : GenService) (t : Nat) (s : SessionState)
    (series : List ℚ) (l : List Message) (a b m : Message)
    (hact : s.investigation_active = true)
    (hspor : meanAbove series (FACTORY_PROFILE Line.Line_4).Threshold = false) :
    (step generate t s ⟨Line.Line_4, none, some series, false, false, true⟩).2.offers =
      [⟨⟨"Line_4", lastIssue s.messages, "Mechanical Failure", "Replace Seal"⟩,
        "RCA_Report_" ++ toString t ++ ".pdf", "RCA_Final.pdf"⟩] ∧
    lastIssue (l ++ [a, b]) = a.content ∧
    lastIssue [] = "Visual Defect" ∧
    lastIssue [m] = "Visual Defect" := by
  refine ⟨?_, ?_, rfl, rfl⟩
  · simp [step, triggerStep, investigationStep, hact, hspor, create_pdf, lineName]
  · have hlen : (l ++ [a, b]).length = l.length + 2 := by simp
    rw [lastIssue, if_pos (by rw [hlen]; omega)]
    have hidx : (l ++ [a, b]).length - 2 = l.length := by rw [hlen]; omega
    rw [hidx]
    have hget : (l ++ [a, b]).getD l.length default = a := by
      rw [List.getD]
      rw [show (l ++ [a, b]).get? l.length = [a, b].get? (l.length - l.length) from
        List.get?_append_right (Nat.le_refl _)]
      rw [Nat.sub_self]
      rfl
    rw [hget]

/-- Witness for C9: a two-message history yields issue "q" (the user's last
question), root cause "Mechanical Failure", action "Replace Seal". -/
theorem mechanical_report_fields_witness :
    (step (fun _ => Except.ok "") 0
        ⟨[⟨Role.user, "q", none⟩, ⟨Role.assistant, "a", none⟩], true, false⟩
        ⟨Line.Line_4, none, some [12], false, false, true⟩).2.offers =
      [⟨⟨"Line_4", lastIssue [⟨Role.user, "q", none⟩, ⟨Role.assistant, "a", none⟩],
          "Mechanical Failure", "Replace Seal"⟩,
        "RCA_Report_" ++ toString 0 ++ ".pdf", "RCA_Final.pdf"⟩] ∧
    lastIssue ([] ++ [⟨Role.user, "q", none⟩, ⟨Role.assistant, "a", none⟩]) =
      (⟨Role.user, "q", none⟩ : Message).content ∧
    lastIssue [] = "Visual Defect" ∧
    lastIssue [(⟨Role.user, "q", none⟩ : Message)] = "Visual Defect" :=
  mechanical_report_fields (fun _ => Except.ok "") 0
    ⟨[⟨Role.user, "q", none⟩, ⟨Role.assistant, "a", none⟩], true, false⟩ [12] []
    ⟨Role.user, "q", none⟩ ⟨Role.assistant, "a", none⟩ ⟨Role.user, "q", none⟩ rfl
    (by norm_num [meanAbove, seriesMean, FACTORY_PROFILE])

/-- C10: a rerun that only changes the selected line (no prompt, no upload,
no button) leaves the session state exactly as it was, for either line; what
does change with the selection is the framing block of the next request and
the threshold used by the next evaluation. -/
theorem line_switch_preserves_state (generate : GenService) (t : Nat) (s : SessionState)
    (l l2 : Line) (p : String) (img : Option PILImage) (series : List ℚ) (hp : p ≠ "") :
    (step generate t s ⟨l, none, none, false, false, false⟩).1 = s ∧
    (step generate t s ⟨l, none, none, false, false, false⟩).1 =
      (step generate t s ⟨l2, none, none, false, false, false⟩).1 ∧
    (step generate t s ⟨l, some (p, img), none, false, false, false⟩).2.payload =
      some (api_contents (FACTORY_PROFILE l) (s.messages ++ [⟨Role.user, p, img⟩])) ∧
    (step generate t ⟨s.messages, true, s.rca_complete⟩
        ⟨l, none, some series, false, false, false⟩).2.verdict = some (evaluate l series) := by
  have hidle : ∀ l' : Line, (step generate t s ⟨l', none, none, false, false, false⟩).1 = s := by
    intro l'
    cases hact : s.investigation_active <;>
      simp [step, triggerStep, investigationStep, hact]
  refine ⟨hidle l, (hidle l).trans (hidle l2).symm, ?_, ?_⟩
  · simp only [step]
    split <;> simp [triggerStep, investigationStep, hp]
  · cases l <;>
      (simp only [step, triggerStep, investigationStep]; split_ifs <;> simp [evaluate])

/-- Witness for C10: from a fresh session, an idle rerun on either line keeps
the state, the prompt "x" on Line_4 is framed with Line_4's profile, and the
next evaluation uses Line_4's threshold. -/
theorem line_switch_preserves_state_witness :
    (step (fun _ => Except.ok "") 0 ⟨[], false, false⟩
        ⟨Line.Line_4, none, none, false, false, false⟩).1 = ⟨[], false, false⟩ ∧
    (step (fun _ => Except.ok "") 0 ⟨[], false, false⟩
        ⟨Line.Line_4, none, none, false, false, false⟩).1 =
      (step (fun _ => Except.ok "") 0 ⟨[], false, false⟩
        ⟨Line.Line_2, none, none, false, false, false⟩).1 ∧
    (step (fun _ => Except.ok "") 0 ⟨[], false, false⟩
        ⟨Line.Line_4, some ("x", none), none, false, false, false⟩).2.payload =
      some (api_contents (FACTORY_PROFILE Line.Line_4)
        (([] : List Message) ++ [⟨Role.user, "x", none⟩])) ∧
    (step (fun _ => Except.ok "") 0 ⟨([] : List Message), true, false⟩
        ⟨Line.Line_4, none, some [1], false, false, false⟩).2.verdict =
      some (evaluate Line.Line_4 [1]) :=
  line_switch_preserves_state (fun _ => Except.ok "") 0 ⟨[], false, false⟩
    Line.Line_4 Line.Line_2 "x" none [1] (by decide)
